import Mathlib

/- Formal model of the eecho CLI's inter-process translation subsystem.

   The development shallowly embeds the TypeScript sources:
     - src/utils/detectJapanese.ts   (Japanese-character detection)
     - src/core/translator.ts        (Translator.translate pipeline)
     - src/entry/eecho.ts            (dispatcher: ensureWorkerRunning,
                                      queueWorkerRequest, waitForResponseFile,
                                      requestTranslationThroughWorker,
                                      shutdownWorkerProcess, runTranslation, main)
     - src/entry/translate-worker.ts (worker daemon: handleRequest,
                                      processRequestFile, startQueueWorker/scanQueue)

   Strings are modelled as lists of characters; JavaScript's
   String.prototype.trim is modelled explicitly.  Asynchronous worker-side
   code is modelled by a small-step event-loop semantics (pending I/O
   operations plus a queue of setImmediate callbacks); dispatcher-side code,
   which the source awaits sequentially, is modelled by explicit state
   passing with a list of externally visible effects. -/

namespace Eecho

/- Character codes JavaScript's String.prototype.trim removes: WhiteSpace
   (TAB, VT, FF, SP, NBSP, ZWNBSP, Unicode Zs) and LineTerminator
   (LF, CR, LS, PS). -/
def jsSpaceCodes : List Nat :=
  [0x9, 0xA, 0xB, 0xC, 0xD, 0x20, 0xA0, 0x1680,
   0x2000, 0x2001, 0x2002, 0x2003, 0x2004, 0x2005, 0x2006, 0x2007,
   0x2008, 0x2009, 0x200A, 0x2028, 0x2029, 0x202F, 0x205F, 0x3000, 0xFEFF]

def isJsSpace (c : Char) : Bool :=
  jsSpaceCodes.contains c.toNat

def trimLeftChars (s : List Char) : List Char :=
  s.dropWhile isJsSpace

def trimRightChars (s : List Char) : List Char :=
  (s.reverse.dropWhile isJsSpace).reverse

/- Model of JavaScript text.trim(). -/
def trimChars (s : List Char) : List Char :=
  trimRightChars (trimLeftChars s)

/- src/utils/detectJapanese.ts: HIRAGANA_REGEX is the range U+3040-U+309F,
   KATAKANA_REGEX is U+30A0-U+30FF, KANJI_REGEX is U+4E00-U+9FFF; a regex
   .test succeeds iff some character of the string is in the range. -/
def isJapaneseChar (c : Char) : Bool :=
  (0x3040 ≤ c.toNat && c.toNat ≤ 0x309F) ||
  (0x30A0 ≤ c.toNat && c.toNat ≤ 0x30FF) ||
  (0x4E00 ≤ c.toNat && c.toNat ≤ 0x9FFF)

/- detectJapanese(text): returns false when the text is empty or
   whitespace-only, otherwise tests the three ranges on the whole text. -/
def detectJapanese (text : List Char) : Bool :=
  if trimChars text = [] then false
  else text.any isJapaneseChar

/- The external translation engine (TransformersProvider is out of scope for
   the core, per the spec): a name, an availability flag (isAvailable) and
   the black-box translation function. -/
structure Provider where
  name : String
  available : Bool
  translateText : List Char → List Char

/- src/core/translator.ts TranslationOutput. -/
structure TranslationOutput where
  translatedText : List Char
  originalText : List Char
  wasJapanese : Bool
  provider : String
  duration : Int
deriving DecidableEq, Repr

/- Translator.translate(text) from src/core/translator.ts: reject empty or
   whitespace-only input, trim, detect Japanese, pass through non-Japanese
   input unchanged, otherwise check availability and invoke the provider.
   t0 is the Date.now() at entry and t1 the Date.now() at return, so
   duration = t1 - t0.  Thrown errors are modelled as Except.error carrying
   the message. -/
def Translator.translate (p : Provider) (t0 t1 : Int) (text : List Char) :
    Except String TranslationOutput :=
  if trimChars text = [] then .error "Translation input cannot be empty"
  else
    let originalText := trimChars text
    if detectJapanese originalText = false then
      .ok { translatedText := originalText, originalText := originalText,
            wasJapanese := false, provider := p.name, duration := t1 - t0 }
    else if p.available = false then
      .error ("Translation provider \"" ++ p.name ++
        "\" is not available. Please check your internet connection for the first run (model download required).")
    else
      .ok { translatedText := p.translateText originalText,
            originalText := originalText,
            wasJapanese := true, provider := p.name, duration := t1 - t0 }

inductive WorkerCommand
  | shutdown
deriving DecidableEq, Repr

/- WorkerRequest from translate-worker.ts (quiet/logLevel are never read by
   the worker logic and are omitted). -/
structure WorkerRequest where
  text : Option (List Char) := none
  command : Option WorkerCommand := none
  id : Option String := none
deriving DecidableEq, Repr

structure WorkerResponse where
  ok : Bool
  result : Option TranslationOutput := none
  error : Option String := none
deriving DecidableEq, Repr

instance {ε α : Type} [DecidableEq ε] [DecidableEq α] : DecidableEq (Except ε α) :=
  fun a b =>
    match a, b with
    | .error e1, .error e2 =>
      if h : e1 = e2 then .isTrue (by rw [h]) else .isFalse (by intro hh; cases hh; exact h rfl)
    | .ok v1, .ok v2 =>
      if h : v1 = v2 then .isTrue (by rw [h]) else .isFalse (by intro hh; cases hh; exact h rfl)
    | .error _, .ok _ => .isFalse (by intro hh; cases hh)
    | .ok _, .error _ => .isFalse (by intro hh; cases hh)

/- handleRequest(request) of translate-worker.ts at the level of the value
   it produces: for a shutdown command it returns an ok-response (the
   process-exit it additionally schedules via setImmediate is modelled in
   the event-loop semantics below); otherwise it trims request.text, answers
   ok:false for missing/blank text, and runs the shared Translator.  A
   rejection of the translate promise propagates out of handleRequest, which
   Except.error captures. -/
def handleRequest (p : Provider) (t0 t1 : Int) (req : WorkerRequest) :
    Except String WorkerResponse :=
  if req.command = some .shutdown then
    .ok { ok := true }
  else
    match req.text with
    | none => .ok { ok := false, error := some "No input text provided" }
    | some t =>
      if trimChars t = [] then .ok { ok := false, error := some "No input text provided" }
      else
        match Translator.translate p t0 t1 (trimChars t) with
        | .error e => .error e
        | .ok r => .ok { ok := true, result := some r }

/- JavaScript (x || 'default') on an optional string: empty string is falsy. -/
def jsOrDefault (o : Option String) (d : String) : String :=
  match o with
  | some m => if m = "" then d else m
  | none => d

/- translateLocally(text, options) of eecho.ts: the Fallback Executor.  It
   calls translator.translate(text.trim()) on a cached Translator holding a
   TransformersProvider (quiet only changes logging, not the provider's
   translation behaviour, so a single Provider value models both cache
   entries). -/
def translateLocally (p : Provider) (t0 t1 : Int) (text : List Char) :
    Except String TranslationOutput :=
  Translator.translate p t0 t1 (trimChars text)

/- The translation outcome the dispatcher observes when a text request goes
   through the worker: the worker's handleRequest produces the response
   written to the response file (if handleRequest rejects, no response file
   is ever written and waitForResponseFile times out), and
   requestTranslationThroughWorker then unwraps ok/result or throws
   response.error || 'Translation failed'. -/
def workerPathOutcome (p : Provider) (t0 t1 : Int) (s : List Char) :
    Except String TranslationOutput :=
  match handleRequest p t0 t1 { text := some s, command := none, id := some "r1" } with
  | .error _ => .error "Worker response timeout"
  | .ok resp =>
    match resp.ok, resp.result with
    | true, some r => .ok r
    | _, _ => .error (jsOrDefault resp.error "Translation failed")

/- A concrete provider used to instantiate witnesses: the transformers
   engine, available, translating every Japanese text to "Hello". -/
def sampleProvider : Provider :=
  { name := "transformers", available := true, translateText := fun _ => "Hello".data }

/- Worker daemon event-loop model (startQueueWorker / scanQueue /
   processRequestFile of translate-worker.ts).

   processRequestFile is an async function: between its awaits, control
   returns to the Node event loop, which may complete other pending I/O or
   run setImmediate callbacks.  The model keeps
     - the queue directory (request files with their JSON.parse outcome,
       response files, the worker.pid marker),
     - the in-memory Set of file names currently being handled,
     - the pending I/O operations, each carrying the continuation data of
       the processRequestFile instance that awaits it,
     - the number of scheduled setImmediate(() => process.exit(0)) callbacks.
   A schedule is a list of scheduler choices: run a directory scan, complete
   one pending I/O operation and run the code up to the next await, or fire
   a scheduled immediate.  Once process.exit has run, nothing else runs. -/

/- Outcome of JSON.parse on the bytes of a request file. -/
abbrev RawRequest := Except String WorkerRequest

def requestFileName (id : String) : String := "req-" ++ id ++ ".json"

def responseFileName (id : String) : String := "res-" ++ id ++ ".json"

/- entry.startsWith(REQUEST_PREFIX) && entry.endsWith(FILE_EXT) with
   REQUEST_PREFIX = 'req-' and FILE_EXT = '.json'. -/
def isRequestFileName (name : String) : Bool :=
  List.isPrefixOf "req-".data name.data && List.isSuffixOf ".json".data name.data

/- One pending I/O operation of a processRequestFile instance, named after
   the await it stands for. -/
inductive WorkerOp
  | readReq (file : String) (raw : Option RawRequest)
  | unlinkReq (file : String) (raw : RawRequest)
  | translating (file : String) (req : WorkerRequest) (id : String) (text : List Char)
  | writeRes (file : String) (req : WorkerRequest) (id : String) (resp : WorkerResponse)
  | unlinkPidFile (file : String)
deriving DecidableEq, Repr

/- Externally visible milestones, in the order they happen. -/
inductive WEvent
  | beginHandling (file : String)
  | requestDeleted (file : String)
  | exitScheduled
  | responseWritten (id : String)
  | pidMarkerRemoved
  | handlingFinished (file : String)
  | processExited
deriving DecidableEq, Repr

structure WorkerState where
  reqFiles : List (String × RawRequest)
  resFiles : List (String × WorkerResponse)
  pidPresent : Bool
  processing : List String
  pending : List WorkerOp
  immediates : Nat
  exited : Bool
  events : List WEvent
deriving Repr

inductive Choice
  | scan
  | completeOp (i : Nat)
  | runImmediate
deriving DecidableEq, Repr

def lookupFile {β : Type} : List (String × β) → String → Option β
  | [], _ => none
  | (k, v) :: rest, f => if k = f then some v else lookupFile rest f

def removeFile {β : Type} : List (String × β) → String → List (String × β)
  | [], _ => []
  | (k, v) :: rest, f => if k = f then removeFile rest f else (k, v) :: removeFile rest f

/- processing.add(entry) followed by the synchronous prefix of
   processRequestFile(queueDir, entry), which runs up to its first await
   (fs.readFile): the read is issued and control returns to the caller. -/
def startHandling (st : WorkerState) (file : String) : WorkerState :=
  { st with
    processing := file :: st.processing
    pending := st.pending ++ [.readReq file (lookupFile st.reqFiles file)]
    events := st.events ++ [.beginHandling file] }

/- The .finally(() => processing.delete(entry)) attached where scanQueue
   launched the handler. -/
def finishHandling (st : WorkerState) (file : String) : WorkerState :=
  { st with
    processing := st.processing.erase file
    events := st.events ++ [.handlingFinished file] }

/- scanQueue: await fs.readdir(queueDir), then for every entry that is a
   request file and is not in the in-flight set, add it to the set and launch
   processRequestFile without awaiting it.  The readdir listing contains the
   request files, the response files and (when present) worker.pid. -/
def scanStep (st : WorkerState) : WorkerState :=
  let listing :=
    st.reqFiles.map Prod.fst ++ st.resFiles.map (fun kv => responseFileName kv.fst) ++
      (if st.pidPresent then ["worker.pid"] else [])
  listing.foldl
    (fun s file =>
      if isRequestFileName file && !(s.processing.contains file) then startHandling s file
      else s)
    st

/- Completion of one pending I/O operation followed by the handler's next
   synchronous segment, exactly as processRequestFile / handleRequest /
   writeResponse execute it:
     - readFile rejecting (file gone) is swallowed by the catch;
     - after fs.unlink the request file is gone; JSON.parse errors and a
       missing (or empty, hence falsy) request.id throw into the catch,
       which writes nothing;
     - a shutdown command makes handleRequest schedule
       setImmediate(() => process.exit(0)) and return ok:true, after which
       processRequestFile awaits writeResponse;
     - missing/blank text yields the ok:false response, otherwise
       translator.translate is awaited, a rejection lands in the catch (no
       response), a result is wrapped in the ok:true response;
     - once the response write completes, a shutdown request additionally
       awaits unlink of worker.pid and then schedules a second immediate
       process.exit. -/
def runOp (p : Provider) (t0 t1 : Int) (st : WorkerState) : WorkerOp → WorkerState
  | .readReq file none => finishHandling st file
  | .readReq file (some raw) =>
    { st with pending := st.pending ++ [.unlinkReq file raw] }
  | .unlinkReq file raw =>
    let st := { st with
      reqFiles := removeFile st.reqFiles file
      events := st.events ++ [.requestDeleted file] }
    match raw with
    | .error _ => finishHandling st file
    | .ok req =>
      match req.id with
      | none => finishHandling st file
      | some id =>
        if id = "" then finishHandling st file
        else if req.command = some .shutdown then
          { st with
            immediates := st.immediates + 1
            events := st.events ++ [.exitScheduled]
            pending := st.pending ++ [.writeRes file req id { ok := true }] }
        else
          match req.text with
          | none =>
            { st with pending := st.pending ++
                [.writeRes file req id { ok := false, error := some "No input text provided" }] }
          | some t =>
            if trimChars t = [] then
              { st with pending := st.pending ++
                  [.writeRes file req id { ok := false, error := some "No input text provided" }] }
            else
              { st with pending := st.pending ++ [.translating file req id (trimChars t)] }
  | .translating file req id text =>
    match Translator.translate p t0 t1 text with
    | .error _ => finishHandling st file
    | .ok r =>
      { st with pending := st.pending ++ [.writeRes file req id { ok := true, result := some r }] }
  | .writeRes file req id resp =>
    let st := { st with
      resFiles := st.resFiles ++ [(id, resp)]
      events := st.events ++ [.responseWritten id] }
    if req.command = some .shutdown then
      { st with pending := st.pending ++ [.unlinkPidFile file] }
    else finishHandling st file
  | .unlinkPidFile file =>
    finishHandling
      { st with
        pidPresent := false
        immediates := st.immediates + 1
        events := st.events ++ [.pidMarkerRemoved, .exitScheduled] }
      file

def step (p : Provider) (t0 t1 : Int) (st : WorkerState) : Choice → WorkerState
  | .scan => if st.exited then st else scanStep st
  | .completeOp i =>
    if st.exited then st
    else
      match st.pending.get? i with
      | none => st
      | some op => runOp p t0 t1 { st with pending := st.pending.eraseIdx i } op
  | .runImmediate =>
    if st.exited then st
    else if st.immediates > 0 then
      { st with
        immediates := st.immediates - 1
        exited := true
        events := st.events ++ [.processExited] }
    else st

def run (p : Provider) (t0 t1 : Int) (st : WorkerState) : List Choice → WorkerState
  | [] => st
  | c :: cs => run p t0 t1 (step p t0 t1 st c) cs

/- The daemon state right after startQueueWorker wrote worker.pid, with the
   given request files already enqueued. -/
def initialWorkerState (reqs : List (String × RawRequest)) : WorkerState :=
  { reqFiles := reqs, resFiles := [], pidPresent := true, processing := [],
    pending := [], immediates := 0, exited := false, events := [] }

/- Dispatcher model (eecho.ts).  The dispatcher is sequential: every await
   is awaited in order, so it is embedded as ordinary state passing.  The
   externally visible effects are collected in order. -/

inductive Effect
  | mkdirQueue
  | startupNotice
  | spawnWorkerProcess
  | writeRequestFile (req : WorkerRequest)
deriving DecidableEq, Repr

/- The dispatcher's environment: what the Liveness Monitor reports
   (isWorkerAlive), whether a spawned worker writes its PidMarker within the
   10 s waitForWorkerReady bound, the id randomRequestId generates, and what
   waitForResponseFile eventually yields for a given id — none for the 60 s
   timeout, Except.error for a non-ENOENT read error or a JSON.parse
   failure, Except.ok for a parsed response (see waitForResponseFile below
   for the poll-level model). -/
structure DispatchEnv where
  alive : Bool
  spawnWorks : Bool
  freshId : String
  responseFor : String → Option (Except String WorkerResponse)
  provider : Provider
  t0 : Int
  t1 : Int

/- ensureWorkerRunning(): if isWorkerAlive() return; otherwise show the
   one-time startup notice, spawnWorker() (which first ensures the queue
   directory), and waitForWorkerReady() which throws 'Worker failed to
   start' on the 10 s timeout. -/
def ensureWorkerRunning (env : DispatchEnv) : Except String Unit × List Effect :=
  if env.alive then (.ok (), [])
  else
    let effs : List Effect := [.startupNotice, .mkdirQueue, .spawnWorkerProcess]
    if env.spawnWorks then (.ok (), effs) else (.error "Worker failed to start", effs)

/- queueWorkerRequest(payload): ensure the queue directory, generate a fresh
   id, write req-<id>.json containing the payload plus the id, call
   ensureWorkerRunning(), then wait for res-<id>.json. -/
def queueWorkerRequest (env : DispatchEnv) (payload : WorkerRequest) :
    Except String WorkerResponse × List Effect :=
  let id := env.freshId
  let req := { payload with id := some id }
  let queued : List Effect := [.mkdirQueue, .writeRequestFile req]
  match ensureWorkerRunning env with
  | (.error e, effs) => (.error e, queued ++ effs)
  | (.ok _, effs) =>
    match env.responseFor id with
    | none => (.error "Worker response timeout", queued ++ effs)
    | some (.error m) => (.error m, queued ++ effs)
    | some (.ok resp) => (.ok resp, queued ++ effs)

/- requestTranslationThroughWorker(text): queue a text request; throw
   response.error || 'Translation failed' unless ok with a result. -/
def requestTranslationThroughWorker (env : DispatchEnv) (text : List Char) :
    Except String TranslationOutput × List Effect :=
  match queueWorkerRequest env { text := some text } with
  | (.error e, effs) => (.error e, effs)
  | (.ok resp, effs) =>
    match resp.ok, resp.result with
    | true, some r => (.ok r, effs)
    | _, _ => (.error (jsOrDefault resp.error "Translation failed"), effs)

/- shutdownWorkerProcess(): throw 'Worker is not running' when the Liveness
   Monitor reports not running, before any file is touched or process
   spawned; otherwise queue a shutdown request and check the response. -/
def shutdownWorkerProcess (env : DispatchEnv) : Except String Unit × List Effect :=
  if env.alive = false then (.error "Worker is not running", [])
  else
    match queueWorkerRequest env { command := some .shutdown } with
    | (.error e, effs) => (.error e, effs)
    | (.ok resp, effs) =>
      if resp.ok then (.ok (), effs)
      else (.error (jsOrDefault resp.error "Failed to shutdown worker"), effs)

inductive CliExit
  | success (msg : String)
  | failure (msg : String) (code : Nat)
deriving DecidableEq, Repr

/- The --shutdown-worker branch of main(): print the confirmation, or route
   the thrown message through exitWithError (stderr 'Error: <msg>', exit
   code 1). -/
def mainShutdown (env : DispatchEnv) : CliExit × List Effect :=
  match shutdownWorkerProcess env with
  | (.ok _, effs) => (.success "Worker shutdown complete.\n", effs)
  | (.error e, effs) => (.failure ("Error: " ++ e ++ "\n") 1, effs)

/- runTranslation(text, options): trim, reject blank input, go local when
   verbose, otherwise try the worker path and on any thrown error fall back
   to translateLocally on the same trimmed text. -/
def runTranslation (env : DispatchEnv) (verbose : Bool) (text : List Char) :
    Except String TranslationOutput × List Effect :=
  let trimmed := trimChars text
  if trimmed = [] then (.error "Translation input cannot be empty", [])
  else if verbose then (translateLocally env.provider env.t0 env.t1 trimmed, [])
  else
    match requestTranslationThroughWorker env trimmed with
    | (.ok r, effs) => (.ok r, effs)
    | (.error _, effs) => (translateLocally env.provider env.t0 env.t1 trimmed, effs)

/- Poll-level model of waitForResponseFile(responsePath, timeoutMs): what
   one loop iteration's fs.readFile(responsePath) produced. -/
inductive PollResult
  | found (raw : Except String WorkerResponse)
  | notFound
  | ioFailure (msg : String)
deriving DecidableEq, Repr

/- waitForResponseFile: while Date.now() - start < timeoutMs, read the
   response file.  A successful read is unlinked and JSON.parsed (a parse
   error has no ENOENT code, so it is rethrown); an ENOENT read is the
   normal waiting state — sleep 100 ms and poll again; any other I/O error
   is rethrown at once.  Exhausting the timeout throws
   'Worker response timeout'.  Each list entry is one poll, paired with the
   Date.now() at its loop check; successive timestamps are about 100 ms
   apart, so the list is finite. -/
def waitForResponseFile (timeoutMs start : Int) :
    List (Int × PollResult) → Except String WorkerResponse
  | [] => .error "Worker response timeout"
  | (now, r) :: rest =>
    if now - start < timeoutMs then
      match r with
      | .found (.ok resp) => .ok resp
      | .found (.error m) => .error m
      | .notFound => waitForResponseFile timeoutMs start rest
      | .ioFailure m => .error m
    else .error "Worker response timeout"

/- Concrete dispatcher environments used by witnesses: a live worker whose
   response never arrives, and no worker at all. -/
def envTimeout : DispatchEnv :=
  { alive := true, spawnWorks := true, freshId := "w1",
    responseFor := fun _ => none, provider := sampleProvider, t0 := 0, t1 := 0 }

def envDead : DispatchEnv :=
  { alive := false, spawnWorks := true, freshId := "w1",
    responseFor := fun _ => none, provider := sampleProvider, t0 := 0, t1 := 0 }

/- Auxiliary facts about JavaScript trim. -/

theorem dropWhile_dropWhile {α : Type} (p : α → Bool) (l : List α) :
    (l.dropWhile p).dropWhile p = l.dropWhile p := by
  induction l with
  | nil => rfl
  | cons a l ih =>
    by_cases h : p a = true
    · simp [List.dropWhile_cons, h, ih]
    · simp [List.dropWhile_cons, h]

theorem dropWhile_head_false {α : Type} (p : α → Bool) (a : α) (s : List α)
    (h : (a :: s).dropWhile p = a :: s) : p a = false := by
  cases hpa : p a with
  | false => rfl
  | true =>
    rw [List.dropWhile_cons_of_pos hpa] at h
    have hl : (s.dropWhile p).length ≤ s.length := (List.dropWhile_sublist p).length_le
    rw [h] at hl
    simp at hl

theorem dropWhile_eq_self_of_prefix {α : Type} (p : α → Bool) {l t : List α}
    (hpre : l <+: t) (ht : t.dropWhile p = t) : l.dropWhile p = l := by
  cases l with
  | nil => rfl
  | cons a l2 =>
    obtain ⟨r, hr⟩ := hpre
    subst hr
    have ha : p a = false := by
      apply dropWhile_head_false p a (l2 ++ r)
      simpa using ht
    simp [List.dropWhile_cons, ha]

theorem trimRightChars_prefixOf (l : List Char) : trimRightChars l <+: l := by
  obtain ⟨u, hu⟩ := List.dropWhile_suffix (l := l.reverse) isJsSpace
  refine ⟨u.reverse, ?_⟩
  rw [trimRightChars, ← List.reverse_append, hu, List.reverse_reverse]

theorem trimLeftChars_trimChars (s : List Char) :
    trimLeftChars (trimChars s) = trimChars s := by
  have hu : trimLeftChars (trimLeftChars s) = trimLeftChars s :=
    dropWhile_dropWhile isJsSpace s
  exact dropWhile_eq_self_of_prefix isJsSpace (trimRightChars_prefixOf (trimLeftChars s)) hu

theorem trimRightChars_trimRightChars (l : List Char) :
    trimRightChars (trimRightChars l) = trimRightChars l := by
  unfold trimRightChars
  rw [List.reverse_reverse, dropWhile_dropWhile]

theorem trimChars_idem (s : List Char) : trimChars (trimChars s) = trimChars s := by
  have h1 : trimChars (trimChars s) = trimRightChars (trimChars s) := by
    rw [trimChars, trimLeftChars_trimChars]
  rw [h1, trimChars, trimRightChars_trimRightChars]

theorem mem_of_mem_trimChars {c : Char} {s : List Char} (h : c ∈ trimChars s) : c ∈ s := by
  have h1 : c ∈ trimLeftChars s := by
    rw [trimChars, trimRightChars] at h
    have h2 := List.mem_reverse.mp h
    have h3 := (List.dropWhile_sublist isJsSpace).subset h2
    exact List.mem_reverse.mp h3
  exact (List.dropWhile_sublist isJsSpace).subset h1

theorem trimChars_eq_nil_of_all_space {s : List Char} (h : s.all isJsSpace = true) :
    trimChars s = [] := by
  have h1 : trimLeftChars s = [] := by
    rw [trimLeftChars, List.dropWhile_eq_nil_iff]
    intro x hx
    exact List.all_eq_true.mp h x hx
  rw [trimChars, h1]
  rfl

/- Any Japanese-free text stays Japanese-free after trimming, so
   detectJapanese rejects it. -/
theorem detectJapanese_trim_false {s : List Char}
    (h : s.all (fun c => !isJapaneseChar c) = true) :
    detectJapanese (trimChars s) = false := by
  rw [detectJapanese]
  by_cases hnil : trimChars (trimChars s) = []
  · simp [hnil]
  · rw [if_neg hnil]
    rw [List.any_eq_false]
    intro c hc
    have hcs : c ∈ s := mem_of_mem_trimChars hc
    have := List.all_eq_true.mp h c hcs
    simpa using this

/- Auxiliary facts about the worker event loop. -/

theorem isRequestFileName_pidfile : isRequestFileName "worker.pid" = false := by decide

/- A drained worker (no request files, no responses, no pending I/O, no
   scheduled immediates) is a fixed point of every scheduler choice. -/
theorem step_quiescent (p : Provider) (t0 t1 : Int) (st : WorkerState)
    (h1 : st.reqFiles = []) (h2 : st.resFiles = []) (h3 : st.pending = [])
    (h4 : st.immediates = 0) (c : Choice) : step p t0 t1 st c = st := by
  cases c with
  | scan =>
    have hscan : scanStep st = st := by
      rw [scanStep, h1, h2]
      cases hp : st.pidPresent
      · simp
      · simp [isRequestFileName_pidfile]
    simp [step, hscan]
  | completeOp i =>
    simp [step, h3]
  | runImmediate =>
    simp [step, h4]

theorem run_quiescent (p : Provider) (t0 t1 : Int) (st : WorkerState)
    (h1 : st.reqFiles = []) (h2 : st.resFiles = []) (h3 : st.pending = [])
    (h4 : st.immediates = 0) (cs : List Choice) : run p t0 t1 st cs = st := by
  induction cs with
  | nil => rfl
  | cons c cs ih =>
    simp only [run]
    rw [step_quiescent p t0 t1 st h1 h2 h3 h4 c]
    exact ih

theorem run_append (p : Provider) (t0 t1 : Int) (st : WorkerState) (l1 l2 : List Choice) :
    run p t0 t1 st (l1 ++ l2) = run p t0 t1 (run p t0 t1 st l1) l2 := by
  induction l1 generalizing st with
  | nil => rfl
  | cons c cs ih =>
    simp only [List.cons_append, run]
    exact ih _

/-- C1: the worker daemon does NOT always write the shutdown acknowledgment
and remove the PidMarker before exiting.  handleRequest schedules
setImmediate process.exit before processRequestFile awaits the response
write, so in the event-loop execution below — scan, read completes, unlink
completes (handleRequest then runs, schedules the exit immediate and issues
the response write), immediate fires — the process exits while the
acknowledgment write is still pending and worker.pid is still present.
This run evaluates the code on the failing input: a consumed request file
req-s1.json carrying command shutdown and id s1. -/
theorem worker_exits_before_shutdown_ack :
    (run sampleProvider 0 0
      (initialWorkerState
        [("req-s1.json",
          Except.ok { text := none, command := some .shutdown, id := some "s1" })])
      [.scan, .completeOp 0, .completeOp 0, .runImmediate]).exited = true ∧
    (run sampleProvider 0 0
      (initialWorkerState
        [("req-s1.json",
          Except.ok { text := none, command := some .shutdown, id := some "s1" })])
      [.scan, .completeOp 0, .completeOp 0, .runImmediate]).resFiles = [] ∧
    (run sampleProvider 0 0
      (initialWorkerState
        [("req-s1.json",
          Except.ok { text := none, command := some .shutdown, id := some "s1" })])
      [.scan, .completeOp 0, .completeOp 0, .runImmediate]).pidPresent = true ∧
    (run sampleProvider 0 0
      (initialWorkerState
        [("req-s1.json",
          Except.ok { text := none, command := some .shutdown, id := some "s1" })])
      [.scan, .completeOp 0, .completeOp 0, .runImmediate]).events =
      [.beginHandling "req-s1.json", .requestDeleted "req-s1.json",
       .exitScheduled, .processExited] := by
  refine ⟨rfl, rfl, rfl, rfl⟩

/-- C2 counterexample: one scan of a queue holding two pending request files
launches processRequestFile for the second entry without awaiting the first:
after the scan, handling of req-b1.json has begun while the handling of
req-a1.json has not completed (its file is still present, no response has
been written, its handler has not finished). -/
theorem scan_begins_next_before_first_completes :
    WEvent.beginHandling "req-b1.json" ∈
      (run sampleProvider 0 0
        (initialWorkerState
          [("req-a1.json", Except.ok { text := some "hi".data, id := some "a1" }),
           ("req-b1.json", Except.ok { text := some "yo".data, id := some "b1" })])
        [.scan]).events ∧
    WEvent.handlingFinished "req-a1.json" ∉
      (run sampleProvider 0 0
        (initialWorkerState
          [("req-a1.json", Except.ok { text := some "hi".data, id := some "a1" }),
           ("req-b1.json", Except.ok { text := some "yo".data, id := some "b1" })])
        [.scan]).events ∧
    WEvent.responseWritten "a1" ∉
      (run sampleProvider 0 0
        (initialWorkerState
          [("req-a1.json", Except.ok { text := some "hi".data, id := some "a1" }),
           ("req-b1.json", Except.ok { text := some "yo".data, id := some "b1" })])
        [.scan]).events ∧
    (run sampleProvider 0 0
      (initialWorkerState
        [("req-a1.json", Except.ok { text := some "hi".data, id := some "a1" }),
         ("req-b1.json", Except.ok { text := some "yo".data, id := some "b1" })])
      [.scan]).reqFiles ≠ [] := by
  refine ⟨by decide, by decide, by decide, by decide⟩

/-- C2 amended: within one daemon no two synchronous segments run in
parallel, but scanQueue launches the handling of every request file a scan
discovers without awaiting any of them — after one scan over two pending
requests, both handlers have begun (their reads are in flight) and neither
has completed; the per-request I/O steps then interleave.  Only duplicate
handling of the same file name is prevented: a second scan while both are
in flight is a no-op thanks to the in-flight set. -/
theorem scanQueue_starts_all_discovered_requests (p : Provider) (t0 t1 : Int)
    (ra rb : RawRequest) :
    (run p t0 t1
      (initialWorkerState [("req-a1.json", ra), ("req-b1.json", rb)])
      [.scan]).events =
      [.beginHandling "req-a1.json", .beginHandling "req-b1.json"] ∧
    (run p t0 t1
      (initialWorkerState [("req-a1.json", ra), ("req-b1.json", rb)])
      [.scan]).pending =
      [.readReq "req-a1.json" (some ra), .readReq "req-b1.json" (some rb)] ∧
    run p t0 t1
      (run p t0 t1 (initialWorkerState [("req-a1.json", ra), ("req-b1.json", rb)]) [.scan])
      [.scan] =
    run p t0 t1 (initialWorkerState [("req-a1.json", ra), ("req-b1.json", rb)]) [.scan] := by
  refine ⟨rfl, rfl, rfl⟩

/-- C5: a consumed request whose JSON has no id field is deleted from the
queue and answered by silence: the worker writes no response file, now or
at any later point of the run (any schedule suffix), so the dispatcher is
left to its timeout.  The run deletes the file (requestDeleted), finishes
the handler, and the response directory stays empty. -/
theorem missing_id_request_dropped_without_response (p : Provider) (t0 t1 : Int)
    (req : WorkerRequest) (h : req.id = none) (rest : List Choice) :
    (run p t0 t1 (initialWorkerState [("req-m1.json", Except.ok req)])
      ([.scan, .completeOp 0, .completeOp 0] ++ rest)).reqFiles = [] ∧
    (run p t0 t1 (initialWorkerState [("req-m1.json", Except.ok req)])
      ([.scan, .completeOp 0, .completeOp 0] ++ rest)).resFiles = [] ∧
    (run p t0 t1 (initialWorkerState [("req-m1.json", Except.ok req)])
      ([.scan, .completeOp 0, .completeOp 0] ++ rest)).events =
      [.beginHandling "req-m1.json", .requestDeleted "req-m1.json",
       .handlingFinished "req-m1.json"] := by
  obtain ⟨text, command, id⟩ := req
  simp only [WorkerRequest.id] at h
  subst h
  rw [run_append]
  have hq :
      run p t0 t1 (initialWorkerState [("req-m1.json",
        Except.ok { text := text, command := command, id := none })])
        [.scan, .completeOp 0, .completeOp 0] =
      { reqFiles := [], resFiles := [], pidPresent := true, processing := [],
        pending := [], immediates := 0, exited := false,
        events := [.beginHandling "req-m1.json", .requestDeleted "req-m1.json",
                   .handlingFinished "req-m1.json"] } := rfl
  rw [hq, run_quiescent p t0 t1 _ rfl rfl rfl rfl rest]
  exact ⟨rfl, rfl, rfl⟩

theorem missing_id_request_dropped_witness :
    ({ text := some "hi".data, command := none, id := none } : WorkerRequest).id = none ∧
    ((run sampleProvider 0 0
      (initialWorkerState [("req-m1.json",
        Except.ok { text := some "hi".data, command := none, id := none })])
      ([.scan, .completeOp 0, .completeOp 0] ++ [.scan, .runImmediate])).reqFiles = [] ∧
    (run sampleProvider 0 0
      (initialWorkerState [("req-m1.json",
        Except.ok { text := some "hi".data, command := none, id := none })])
      ([.scan, .completeOp 0, .completeOp 0] ++ [.scan, .runImmediate])).resFiles = [] ∧
    (run sampleProvider 0 0
      (initialWorkerState [("req-m1.json",
        Except.ok { text := some "hi".data, command := none, id := none })])
      ([.scan, .completeOp 0, .completeOp 0] ++ [.scan, .runImmediate])).events =
      [.beginHandling "req-m1.json", .requestDeleted "req-m1.json",
       .handlingFinished "req-m1.json"]) :=
  ⟨rfl, missing_id_request_dropped_without_response sampleProvider 0 0
    { text := some "hi".data, command := none, id := none } rfl [.scan, .runImmediate]⟩

/-- C3: whenever the worker path of the non-verbose entry point fails with
any thrown error — spawn timeout, response timeout, malformed response, or
an ok:false response all surface as Except.error of
requestTranslationThroughWorker — runTranslation returns exactly the result
of the Fallback Executor (translateLocally) applied to the same trimmed
input; hence an error reaches the end user only when that fallback itself
errors, and a fallback success hides the worker-path failure entirely. -/
theorem runTranslation_falls_back_on_worker_failure (env : DispatchEnv)
    (text : List Char) (e : String)
    (h1 : trimChars text ≠ [])
    (h2 : (requestTranslationThroughWorker env (trimChars text)).fst = Except.error e) :
    (runTranslation env false text).fst =
      translateLocally env.provider env.t0 env.t1 (trimChars text) := by
  rcases hw : requestTranslationThroughWorker env (trimChars text) with ⟨res, effs⟩
  rw [hw] at h2
  have hres : res = Except.error e := h2
  subst hres
  simp [runTranslation, h1, hw]

theorem runTranslation_falls_back_witness :
    trimChars "hello".data ≠ [] ∧
    (requestTranslationThroughWorker envTimeout (trimChars "hello".data)).fst =
      Except.error "Worker response timeout" ∧
    (runTranslation envTimeout false "hello".data).fst =
      translateLocally envTimeout.provider envTimeout.t0 envTimeout.t1
        (trimChars "hello".data) :=
  ⟨by decide, by decide,
   runTranslation_falls_back_on_worker_failure envTimeout "hello".data
     "Worker response timeout" (by decide) (by decide)⟩

/-- C4: for any input, the translation outcome observed through the worker
path and the one produced by the local Fallback Executor coincide: success
with a given TranslationOutput on one path is success with the very same
output on the other (duration included, relative to the same clock
readings), and both are the same Translator.translate applied to the
trimmed text. -/
theorem worker_and_local_paths_agree (p : Provider) (t0 t1 : Int) (s : List Char)
    (r : TranslationOutput) :
    (workerPathOutcome p t0 t1 s = Except.ok r ↔
      translateLocally p t0 t1 s = Except.ok r) ∧
    translateLocally p t0 t1 s = Translator.translate p t0 t1 (trimChars s) := by
  refine ⟨?_, rfl⟩
  rw [workerPathOutcome, handleRequest]
  simp only [reduceCtorEq, if_false]
  by_cases hnil : trimChars s = []
  · have htl : translateLocally p t0 t1 s = .error "Translation input cannot be empty" := by
      rw [translateLocally, Translator.translate, trimChars_idem, if_pos hnil]
    rw [htl]
    simp [hnil]
  · rw [if_neg hnil]
    have htl : translateLocally p t0 t1 s = Translator.translate p t0 t1 (trimChars s) := rfl
    rw [htl]
    cases htr : Translator.translate p t0 t1 (trimChars s) with
    | error e => simp
    | ok out => simp

theorem worker_and_local_paths_agree_witness :
    (workerPathOutcome sampleProvider 0 0 "hello".data =
        Except.ok { translatedText := "hello".data, originalText := "hello".data,
                    wasJapanese := false, provider := "transformers", duration := 0 } ↔
      translateLocally sampleProvider 0 0 "hello".data =
        Except.ok { translatedText := "hello".data, originalText := "hello".data,
                    wasJapanese := false, provider := "transformers", duration := 0 }) ∧
    translateLocally sampleProvider 0 0 "hello".data =
      Translator.translate sampleProvider 0 0 (trimChars "hello".data) :=
  worker_and_local_paths_agree sampleProvider 0 0 "hello".data
    { translatedText := "hello".data, originalText := "hello".data,
      wasJapanese := false, provider := "transformers", duration := 0 }

/-- C6: requesting worker shutdown while the Liveness Monitor reports the
worker not running throws 'Worker is not running', which main surfaces via
exitWithError (stderr message, exit code 1); the effect list is empty, so
no request file is created and no worker process is spawned. -/
theorem shutdown_when_not_running_reports_error (env : DispatchEnv)
    (h : env.alive = false) :
    shutdownWorkerProcess env = (Except.error "Worker is not running", []) ∧
    mainShutdown env = (CliExit.failure "Error: Worker is not running\n" 1, []) ∧
    (∀ req, Effect.writeRequestFile req ∉ (shutdownWorkerProcess env).snd) ∧
    Effect.spawnWorkerProcess ∉ (shutdownWorkerProcess env).snd := by
  have h1 : shutdownWorkerProcess env = (Except.error "Worker is not running", []) := by
    rw [shutdownWorkerProcess, h]
    simp
  refine ⟨h1, by rw [mainShutdown, h1]; rfl, ?_, ?_⟩
  · intro req
    rw [h1]
    simp
  · rw [h1]
    simp

theorem shutdown_when_not_running_witness :
    envDead.alive = false ∧
    (shutdownWorkerProcess envDead = (Except.error "Worker is not running", []) ∧
     mainShutdown envDead = (CliExit.failure "Error: Worker is not running\n" 1, []) ∧
     (∀ req, Effect.writeRequestFile req ∉ (shutdownWorkerProcess envDead).snd) ∧
     Effect.spawnWorkerProcess ∉ (shutdownWorkerProcess envDead).snd) :=
  ⟨rfl, shutdown_when_not_running_reports_error envDead rfl⟩

/-- C7: while polling for the response file inside the 60-second window, a
read that fails with ENOENT is the normal waiting state — the loop sleeps
about 100 ms and polls again — whereas a read failing with any other I/O
error is propagated immediately, whatever polls would have followed. -/
theorem poll_enoent_retries_other_errors_propagate (start now : Int) (m : String)
    (rest : List (Int × PollResult)) (h : now - start < 60000) :
    waitForResponseFile 60000 start ((now, PollResult.ioFailure m) :: rest) =
      Except.error m ∧
    waitForResponseFile 60000 start ((now, PollResult.notFound) :: rest) =
      waitForResponseFile 60000 start rest := by
  constructor <;> simp [waitForResponseFile, h]

theorem poll_enoent_retries_witness :
    ((100 : Int) - 0 < 60000) ∧
    (waitForResponseFile 60000 0 [((100 : Int), PollResult.ioFailure "EACCES")] =
      Except.error "EACCES" ∧
    waitForResponseFile 60000 0 [((100 : Int), PollResult.notFound)] =
      waitForResponseFile 60000 0 []) :=
  ⟨by decide, poll_enoent_retries_other_errors_propagate 0 100 "EACCES" [] (by decide)⟩

/-- C8: when the Liveness Monitor reports the worker alive,
ensureWorkerRunning returns at once with no effects; running it twice in a
row therefore performs zero spawns (and zero effects of any kind). -/
theorem ensureWorkerRunning_idempotent_when_alive (env : DispatchEnv)
    (h : env.alive = true) :
    ensureWorkerRunning env = (Except.ok (), []) ∧
    Effect.spawnWorkerProcess ∉
      (ensureWorkerRunning env).snd ++ (ensureWorkerRunning env).snd := by
  have h1 : ensureWorkerRunning env = (Except.ok (), []) := by
    rw [ensureWorkerRunning, h]
    simp
  refine ⟨h1, ?_⟩
  rw [h1]
  simp

theorem ensureWorkerRunning_idempotent_witness :
    envTimeout.alive = true ∧
    (ensureWorkerRunning envTimeout = (Except.ok (), []) ∧
     Effect.spawnWorkerProcess ∉
       (ensureWorkerRunning envTimeout).snd ++ (ensureWorkerRunning envTimeout).snd) :=
  ⟨rfl, ensureWorkerRunning_idempotent_when_alive envTimeout rfl⟩

/-- C9 counterexample: a single space is a non-empty input containing no
Japanese character, yet neither path yields any translation result: the
local path throws 'Translation input cannot be empty' and the worker path
yields the ok:false 'No input text provided' error, so the claimed
passthrough result does not exist for this input. -/
theorem whitespace_only_input_yields_no_result :
    " ".data ≠ ([] : List Char) ∧
    " ".data.all (fun c => !isJapaneseChar c) = true ∧
    workerPathOutcome sampleProvider 0 0 " ".data =
      Except.error "No input text provided" ∧
    translateLocally sampleProvider 0 0 " ".data =
      Except.error "Translation input cannot be empty" := by
  refine ⟨by decide, by decide, by decide, by decide⟩

/-- C9 amended: for every input that is non-blank (non-empty after
trimming) and contains no Japanese character — no hiragana, katakana or CJK
ideograph — both the worker path and the local path succeed with
wasJapanese false and translatedText equal to the trimmed input
unchanged. -/
theorem non_japanese_input_passes_through (p : Provider) (t0 t1 : Int) (s : List Char)
    (h1 : trimChars s ≠ [])
    (h2 : s.all (fun c => !isJapaneseChar c) = true) :
    workerPathOutcome p t0 t1 s =
      Except.ok { translatedText := trimChars s, originalText := trimChars s,
                  wasJapanese := false, provider := p.name, duration := t1 - t0 } ∧
    translateLocally p t0 t1 s =
      Except.ok { translatedText := trimChars s, originalText := trimChars s,
                  wasJapanese := false, provider := p.name, duration := t1 - t0 } := by
  have hdet : detectJapanese (trimChars s) = false := detectJapanese_trim_false h2
  have htr : Translator.translate p t0 t1 (trimChars s) =
      Except.ok { translatedText := trimChars s, originalText := trimChars s,
                  wasJapanese := false, provider := p.name, duration := t1 - t0 } := by
    rw [Translator.translate, trimChars_idem, if_neg h1]
    simp only [trimChars_idem, hdet]
    simp
  refine ⟨?_, htr⟩
  rw [workerPathOutcome, handleRequest]
  simp only [reduceCtorEq, if_false, if_neg h1]
  rw [htr]

theorem non_japanese_passthrough_witness :
    trimChars "hello".data ≠ [] ∧
    "hello".data.all (fun c => !isJapaneseChar c) = true ∧
    (workerPathOutcome sampleProvider 0 0 "hello".data =
      Except.ok { translatedText := trimChars "hello".data,
                  originalText := trimChars "hello".data,
                  wasJapanese := false, provider := sampleProvider.name,
                  duration := 0 - 0 } ∧
    translateLocally sampleProvider 0 0 "hello".data =
      Except.ok { translatedText := trimChars "hello".data,
                  originalText := trimChars "hello".data,
                  wasJapanese := false, provider := sampleProvider.name,
                  duration := 0 - 0 }) :=
  ⟨by decide, by decide,
   non_japanese_input_passes_through sampleProvider 0 0 "hello".data
     (by decide) (by decide)⟩

/-- C10: an input that is empty or all whitespace makes runTranslation throw
'Translation input cannot be empty' with an empty effect list — no request
file is written and no worker is spawned — on every path: the quantified
verbose flag covers the verbose path, and the queued path and its fallback
are never reached. -/
theorem blank_input_rejected_before_any_effect (env : DispatchEnv) (verbose : Bool)
    (text : List Char) (h : text.all isJsSpace = true) :
    runTranslation env verbose text =
      (Except.error "Translation input cannot be empty", []) := by
  have h1 : trimChars text = [] := trimChars_eq_nil_of_all_space h
  simp [runTranslation, h1]

theorem blank_input_rejected_witness :
    "  ".data.all isJsSpace = true ∧
    runTranslation envTimeout false "  ".data =
      (Except.error "Translation input cannot be empty", []) :=
  ⟨by decide, blank_input_rejected_before_any_effect envTimeout false "  ".data (by decide)⟩

end Eecho
